import Mathlib

/-! Verification embedding of the gr0g BLE attribute bridge (app.py).

The bridge exposes GATT characteristics whose ReadValue and WriteValue
handlers translate byte payloads to backend status queries and commands.
We embed the byte codecs (struct.pack and struct.unpack on doubles and
4-byte ints, ASCII decimal parsing, UTF-8 enum membership), the per
characteristic handler logic, and the startup call sequence of main.

Python exceptions that escape a handler are modelled by the Fault type.
IEEE-754 doubles are modelled by their 64-bit pattern, since struct.pack
and struct.unpack act on the pattern exactly. Machine-native byte order
is little-endian (the deployment targets are little-endian). -/

namespace Gr0g

/-- Exceptions that can escape a handler.  The first five are the DBus
error classes declared in app.py; the rest are ordinary Python
exceptions raised by handler code. -/
inductive Fault
  | invalidArgs
  | notSupported
  | notPermitted
  | invalidValueLength
  | failed
  | structError
  | valueError
  | nameError
  | typeError
  deriving Repr, DecidableEq

/-- Value slot of an outbound command map. -/
inductive CmdVal
  | f (bits : Nat)
  | i (n : Int)
  deriving Repr, DecidableEq

/-- Outbound command map: cmd plus the optional value and state fields
used by the handlers (fan sends cmd only, setlight sends cmd and state,
the setpoints send cmd and value). -/
structure Command where
  cmd : String
  value : Option CmdVal
  state : Option String
  deriving Repr, DecidableEq

/-- Result of a WriteValue invocation: the characteristic state after the
call, the commands submitted to the backend transport, and the exception
that propagated to the caller, if any. -/
structure WriteOut (σ : Type) where
  st : σ
  sent : List Command
  fault : Option Fault
  deriving Repr, DecidableEq

/-- Result of a ReadValue invocation: state after the call, the returned
bytes (none when an exception propagated instead), and that exception. -/
structure ReadOut (σ : Type) where
  st : σ
  ret : Option (List Nat)
  fault : Option Fault
  deriving Repr, DecidableEq

/-- Little-endian byte list of a 64-bit pattern: struct.pack with format d
applied to the double whose bit pattern is w. -/
def packD (w : Nat) : List Nat :=
  [w % 256, w / 256 % 256, w / 65536 % 256, w / 16777216 % 256,
   w / 4294967296 % 256, w / 1099511627776 % 256,
   w / 281474976710656 % 256, w / 72057594037927936 % 256]

/-- Little-endian value of a byte list. -/
def leNat (bs : List Nat) : Nat :=
  bs.foldr (fun b acc => b + 256 * acc) 0

/-- struct.unpack with format d: requires exactly 8 bytes (struct.error
otherwise) and yields the bit pattern of the decoded double. -/
def unpackD (bs : List Nat) : Option Nat :=
  if bs.length = 8 then some (leNat bs) else none

/-- Two-complement reading of a 32-bit pattern. -/
def toSigned32 (n : Nat) : Int :=
  if n < 2 ^ 31 then (n : Int) else (n : Int) - 2 ^ 32

/-- struct.unpack with format i: requires exactly 4 bytes (struct.error
otherwise) and yields the signed 32-bit integer. -/
def unpackI (bs : List Nat) : Option Int :=
  if bs.length = 4 then some (toSigned32 (leNat bs)) else none

/-- UTF-8 bytes of an ASCII string (all strings handled here are ASCII). -/
def strBytes (s : String) : List Nat :=
  s.data.map Char.toNat

/-- String built from payload bytes through chr, as LightControl does. -/
def bytesToStr (bs : List Nat) : String :=
  ⟨bs.map Char.ofNat⟩

/-- Python str.lower for the ASCII strings handled here: lower-case each
character. -/
def strToLower (s : String) : String :=
  ⟨s.data.map Char.toLower⟩

/-- Characters Python int stripping treats as whitespace, restricted to
the Latin-1 range reachable from chr of a byte: tab through carriage
return, the four separator controls 0x1C-0x1F, space, next line 0x85 and
no-break space 0xA0.  Decimal digits in that range are exactly ASCII 0-9. -/
def pyIsSpace (c : Char) : Bool :=
  c.toNat = 9 || c.toNat = 10 || c.toNat = 11 || c.toNat = 12 ||
  c.toNat = 13 || c.toNat = 28 || c.toNat = 29 || c.toNat = 30 ||
  c.toNat = 31 || c.toNat = 32 || c.toNat = 133 || c.toNat = 160

/-- Surrounding whitespace stripped, as Python int does before parsing. -/
def stripPy (cs : List Char) : List Char :=
  ((cs.dropWhile pyIsSpace).reverse.dropWhile pyIsSpace).reverse

/-- One or more ASCII decimal digits, with a single underscore allowed
between two digits (the Python numeric-literal grouping int accepts);
leading, trailing or doubled underscores are rejected. -/
def digitGroups : List Char → Bool
  | [] => false
  | [c] => c.isDigit
  | c :: '_' :: rest => c.isDigit && digitGroups rest
  | c :: rest => c.isDigit && digitGroups rest

/-- Numeric value of a digit string, ignoring grouping underscores. -/
def digitsVal (cs : List Char) : Nat :=
  (cs.filter (fun c => c ≠ '_')).foldl (fun a c => 10 * a + (c.toNat - 48)) 0

/-- Python int applied to a string: surrounding whitespace is stripped,
then an optional sign followed by decimal digits with single underscores
permitted between digits; anything else raises ValueError (modelled as
none). -/
def pyInt (s : String) : Option Int :=
  match stripPy s.data with
  | '-' :: rest =>
      if digitGroups rest then some (-(digitsVal rest : Int)) else none
  | '+' :: rest =>
      if digitGroups rest then some ((digitsVal rest : Int)) else none
  | cs =>
      if digitGroups cs then some ((digitsVal cs : Int)) else none

/-- State of FanControlCharacteristic: self.value, a list of byte ints. -/
structure FanState where
  value : List Nat
  deriving Repr, DecidableEq

/-- FanControlCharacteristic init sets self.value to the single byte 0xFF. -/
def fanInit : FanState := ⟨[0xFF]⟩

/-- State of the float-valued characteristics (Light, Temperature,
Humidity and the two setpoints): self.value, a list of byte ints. -/
structure FloatChar where
  value : List Nat
  deriving Repr, DecidableEq

/-- Each float characteristic init sets self.value to the empty list. -/
def floatCharInit : FloatChar := ⟨[]⟩

def lightInit : FloatChar := floatCharInit
def temperatureInit : FloatChar := floatCharInit
def temperatureSetpointInit : FloatChar := floatCharInit
def humidityInit : FloatChar := floatCharInit
def humiditySetpointInit : FloatChar := floatCharInit

/-- State of LightControlCharacteristic: self.value and lastValue. -/
structure LightControlState where
  value : List Nat
  lastValue : Nat
  deriving Repr, DecidableEq

/-- LightControlCharacteristic starts with value [0] and lastValue 0. -/
def lightControlInit : LightControlState := ⟨[0], 0⟩

/-- State.has_value of FanControlCharacteristic: dict membership among the
enum values, an exact string comparison against ON, OFF and UNKNOWN. -/
def fanHasValue (s : String) : Bool :=
  decide (s = "ON" ∨ s = "OFF" ∨ s = "UNKNOWN")

/-- FanControlCharacteristic.ReadValue.  On backend success the fan field
text replaces self.value (as UTF-8 bytes) and is returned.  On backend
failure the except block evaluates bytearray applied to the enum member
State.unknown with an encoding argument, which needs a str and therefore
raises TypeError; self.value is left unchanged and no bytes are returned. -/
def fanRead (st : FanState) (field : Option String) : ReadOut FanState :=
  match field with
  | some s => { st := ⟨strBytes s⟩, ret := some (strBytes s), fault := none }
  | none => { st := st, ret := none, fault := some Fault.typeError }

/-- FanControlCharacteristic.WriteValue.  Membership failure raises
NotPermittedException before any backend contact.  On membership success a
cmd map with the lower-cased string is posted; if the post raises, the
except clause names the undefined identifier Exceptions, so a NameError
propagates and the final assignment to self.value is skipped. -/
def fanWrite (st : FanState) (s : String) (backendOk : Bool) :
    WriteOut FanState :=
  if fanHasValue s then
    if backendOk then
      { st := ⟨strBytes s⟩,
        sent := [{ cmd := strToLower s, value := none, state := none }],
        fault := none }
    else
      { st := st,
        sent := [{ cmd := strToLower s, value := none, state := none }],
        fault := some Fault.nameError }
  else
    { st := st, sent := [], fault := some Fault.notPermitted }

/-- Shared body of the float characteristic ReadValue handlers: on backend
success the status field (a double given by its bit pattern) is packed
into 8 bytes, stored in self.value and returned; on backend failure the
error is logged and the previous self.value is returned, with no fault. -/
def floatRead (st : FloatChar) (field : Option Nat) : ReadOut FloatChar :=
  match field with
  | some w => { st := ⟨packD w⟩, ret := some (packD w), fault := none }
  | none => { st := st, ret := some st.value, fault := none }

/-- LightCharacteristic.ReadValue over the light status field. -/
def lightRead (st : FloatChar) (field : Option Nat) : ReadOut FloatChar :=
  floatRead st field

/-- TemperatureCharacteristic.ReadValue over the temperature field. -/
def temperatureRead (st : FloatChar) (field : Option Nat) : ReadOut FloatChar :=
  floatRead st field

/-- TemperatureSetpointCharacteristic.ReadValue over temperature_setpoint. -/
def temperatureSetpointRead (st : FloatChar) (field : Option Nat) :
    ReadOut FloatChar :=
  floatRead st field

/-- HumidityCharacteristic.ReadValue over the humidity field. -/
def humidityRead (st : FloatChar) (field : Option Nat) : ReadOut FloatChar :=
  floatRead st field

/-- HumiditySetpointCharacteristic.ReadValue over humidity_setpoint. -/
def humiditySetpointRead (st : FloatChar) (field : Option Nat) :
    ReadOut FloatChar :=
  floatRead st field

/-- LightControlCharacteristic.ReadValue: self.value becomes the singleton
list holding lastValue and is returned. -/
def lightControlRead (st : LightControlState) : ReadOut LightControlState :=
  { st := { st with value := [st.lastValue] },
    ret := some [st.lastValue], fault := none }

/-- LightControlCharacteristic.WriteValue.  The payload bytes are joined
through chr into svalue and parsed with int, which raises ValueError on a
non-numeric string.  A parsed value outside 0, 1, 2 reaches the invalid
branch, whose log f-string names the undefined identifier cmd, so a
NameError propagates before NotPermittedException can be raised.  An
accepted value submits the setlight command; a backend failure hits the
except clause naming the undefined identifier Exceptions, so a NameError
propagates and lastValue is left unchanged.  On success lastValue becomes
the parsed value; self.value is not touched by WriteValue. -/
def lightControlWrite (st : LightControlState) (payload : List Nat)
    (backendOk : Bool) : WriteOut LightControlState :=
  let sv := bytesToStr payload
  match pyInt sv with
  | none => { st := st, sent := [], fault := some Fault.valueError }
  | some i =>
    if i = 0 ∨ i = 1 ∨ i = 2 then
      if backendOk then
        { st := { st with lastValue := i.toNat },
          sent := [{ cmd := "setlight", value := none,
                     state := some (strToLower sv) }],
          fault := none }
      else
        { st := st,
          sent := [{ cmd := "setlight", value := none,
                     state := some (strToLower sv) }],
          fault := some Fault.nameError }
    else
      { st := st, sent := [], fault := some Fault.nameError }

/-- TemperatureSetpointCharacteristic.WriteValue.  struct.unpack with
format d raises struct.error unless the payload is exactly 8 bytes; no
length check of its own exists and InvalidValueLengthException is never
raised.  On decode success the temperature_setpoint command carries the
decoded double; a backend failure hits the except clause naming the
undefined identifier Exceptions, so a NameError propagates.  The handler
never assigns self.value. -/
def temperatureSetpointWrite (st : FloatChar) (payload : List Nat)
    (backendOk : Bool) : WriteOut FloatChar :=
  match unpackD payload with
  | none => { st := st, sent := [], fault := some Fault.structError }
  | some w =>
    { st := st,
      sent := [{ cmd := "temperature_setpoint", value := some (CmdVal.f w),
                 state := none }],
      fault := if backendOk then none else some Fault.nameError }

/-- HumiditySetpointCharacteristic.WriteValue.  struct.unpack with format
i raises struct.error unless the payload is exactly 4 bytes; on success
the humidity_setpoint command carries the signed 32-bit integer.  Backend
failure raises a NameError as in the other handlers; self.value is never
assigned. -/
def humiditySetpointWrite (st : FloatChar) (payload : List Nat)
    (backendOk : Bool) : WriteOut FloatChar :=
  match unpackI payload with
  | none => { st := st, sent := [], fault := some Fault.structError }
  | some n =>
    { st := st,
      sent := [{ cmd := "humidity_setpoint", value := some (CmdVal.i n),
                 state := none }],
      fault := if backendOk then none else some Fault.nameError }

/-- Observable steps of main and of the registration callbacks. -/
inductive BootEvent
  | logCritical (msg : String)
  | powerAdapter
  | registerAgent
  | registerAdvertisement
  | registerApplication
  | requestDefaultAgent
  | loopRun
  | loopQuit
  deriving Repr, BEq, DecidableEq

/-- Synchronous call sequence of main.  Without an adapter, main logs a
critical error and returns before creating or registering anything.  With
an adapter it powers the adapter, calls RegisterAgent, then the two
asynchronous registrations (advertisement, then application), then
RequestDefaultAgent, then runs the event loop. -/
def mainEvents (adapterFound : Bool) : List BootEvent :=
  if adapterFound then
    [BootEvent.powerAdapter, BootEvent.registerAgent,
     BootEvent.registerAdvertisement, BootEvent.registerApplication,
     BootEvent.requestDefaultAgent, BootEvent.loopRun]
  else
    [BootEvent.logCritical "GattManager1 interface not found"]

/-- An error-handler argument of an asynchronous registration call: either
a callable, or a Python list wrapping a callable (a list is not callable). -/
inductive CbHandler
  | callable (run : List BootEvent)
  | listWrapped (inner : List BootEvent)
  deriving Repr, DecidableEq

/-- The error handler main passes to RegisterAdvertisement:
register_ad_error_cb, which logs a critical error and quits the loop. -/
def adErrorHandler : CbHandler :=
  CbHandler.callable
    [BootEvent.logCritical "Failed to register advertisement",
     BootEvent.loopQuit]

/-- The error handler main passes to RegisterApplication: the singleton
list [register_app_error_cb], a Python list rather than the callback. -/
def appErrorHandler : CbHandler :=
  CbHandler.listWrapped
    [BootEvent.logCritical "Failed to register application",
     BootEvent.loopQuit]

/-- Invoking an error handler: a callable runs its body; calling a list
raises TypeError, so no events run. -/
def invokeCb : CbHandler → Option (List BootEvent)
  | CbHandler.callable es => some es
  | CbHandler.listWrapped _ => none

end Gr0g

namespace Gr0g

/-- C9: packing a double (given by its 64-bit pattern) with the read-side
codec and decoding the 8 bytes with the write-side decode recovers the
pattern exactly, hence the double exactly. -/
theorem double_pack_unpack_roundTrip (w : Nat) (h : w < 2 ^ 64) :
    unpackD (packD w) = some w := by
  simp [unpackD, packD, leNat]
  omega

/-- Witness for C9 at the bit pattern of 21.5. -/
theorem double_roundTrip_witness :
    0x4035800000000000 < 2 ^ 64 ∧
    unpackD (packD 0x4035800000000000) = some 0x4035800000000000 :=
  ⟨by decide, double_pack_unpack_roundTrip 0x4035800000000000 (by decide)⟩

/-- C8: when the backend reports light 42.0 (IEEE-754 pattern
0x4045000000000000), ReadValue returns the 8 little-endian bytes of that
pattern and stores them as the current value. -/
theorem light_read_42_encoding (st : FloatChar) :
    lightRead st (some 0x4045000000000000) =
      { st := ⟨[0, 0, 0, 0, 0, 0, 0x45, 0x40]⟩,
        ret := some [0, 0, 0, 0, 0, 0, 0x45, 0x40], fault := none } ∧
    [0, 0, 0, 0, 0, 0, 0x45, 0x40] = packD 0x4045000000000000 :=
  ⟨rfl, rfl⟩

/-- Witness for C8 at the initial light state. -/
theorem light_read_42_witness :
    lightRead lightInit (some 0x4045000000000000) =
      { st := ⟨[0, 0, 0, 0, 0, 0, 0x45, 0x40]⟩,
        ret := some [0, 0, 0, 0, 0, 0, 0x45, 0x40], fault := none } :=
  (light_read_42_encoding lightInit).1

/-- C5: evaluation at the failing input.  A fan read whose backend call
fails raises TypeError out of the handler (bytearray applied to the enum
member State.unknown with an encoding argument needs a str), instead of
returning the UNKNOWN sentinel bytes; the float characteristics do return
the previous in-memory value with no fault. -/
theorem fan_read_failure_raises_typeError :
    fanRead fanInit none =
      { st := fanInit, ret := none, fault := some Fault.typeError } ∧
    (∀ st : FloatChar,
      floatRead st none = { st := st, ret := some st.value, fault := none }) :=
  ⟨rfl, fun _ => rfl⟩

/-- C1 counterexample: a 4-byte temperature setpoint write raises
struct.error from struct.unpack, not InvalidValueLength (no length guard
exists and InvalidValueLengthException is never raised). -/
theorem tempSetpoint_write_4bytes_not_invalidValueLength :
    (temperatureSetpointWrite floatCharInit [0, 0, 0, 0] true).fault =
      some Fault.structError ∧
    some Fault.structError ≠ some Fault.invalidValueLength ∧
    (temperatureSetpointWrite floatCharInit [0, 0, 0, 0] true).sent = [] := by
  decide

/-- C1 amended: an 8-byte write decodes the payload as an IEEE-754 double
and submits a temperature_setpoint command carrying exactly that double;
a payload of any other length raises struct.error before any backend
contact. -/
theorem tempSetpoint_write_decodes_or_structError (st : FloatChar)
    (bs : List Nat) (bk : Bool) :
    (bs.length = 8 →
      (temperatureSetpointWrite st bs bk).sent =
        [{ cmd := "temperature_setpoint", value := some (CmdVal.f (leNat bs)),
           state := none }]) ∧
    (bs.length ≠ 8 →
      temperatureSetpointWrite st bs bk =
        { st := st, sent := [], fault := some Fault.structError }) := by
  constructor
  · intro h8
    simp [temperatureSetpointWrite, unpackD, h8]
  · intro h8
    simp [temperatureSetpointWrite, unpackD, h8]

/-- Witness for amended C1: the 8 bytes encoding 21.5 (pattern
0x4035800000000000) submit that exact double; 4 bytes raise struct.error. -/
theorem tempSetpoint_write_decode_witness :
    (packD 0x4035800000000000).length = 8 ∧
    (temperatureSetpointWrite floatCharInit (packD 0x4035800000000000)
        true).sent =
      [{ cmd := "temperature_setpoint",
         value := some (CmdVal.f (leNat (packD 0x4035800000000000))),
         state := none }] ∧
    leNat (packD 0x4035800000000000) = 0x4035800000000000 ∧
    temperatureSetpointWrite floatCharInit [0, 0, 0, 0] true =
      { st := floatCharInit, sent := [], fault := some Fault.structError } :=
  ⟨by decide,
   (tempSetpoint_write_decodes_or_structError floatCharInit
      (packD 0x4035800000000000) true).1 (by decide),
   by decide,
   (tempSetpoint_write_decodes_or_structError floatCharInit [0, 0, 0, 0]
      true).2 (by decide)⟩

/-- C2 counterexample: writing the ASCII byte of 3 to the light control
raises NameError (the invalid branch logs an f-string naming the
undefined identifier cmd before NotPermittedException is reached), not
NotPermitted; state is unchanged and nothing is sent. -/
theorem lightControl_write_three_not_notPermitted :
    lightControlWrite lightControlInit [51] true =
      { st := lightControlInit, sent := [], fault := some Fault.nameError } ∧
    some Fault.nameError ≠ some Fault.notPermitted := by
  decide

/-- C2 amended: the digit payloads 0, 1, 2 are accepted and, with a
succeeding backend, set lastValue to 0, 1, 2 while leaving the current
value bytes unchanged; a payload that int cannot parse raises ValueError;
a parsed value outside 0, 1, 2 raises NameError; both rejection paths
leave the state unchanged and contact no backend, and NotPermitted is
never signalled. -/
theorem lightControl_write_digits_and_rejection (st : LightControlState)
    (bs : List Nat) (bk : Bool) :
    ((lightControlWrite st [48] true).st.lastValue = 0 ∧
     (lightControlWrite st [49] true).st.lastValue = 1 ∧
     (lightControlWrite st [50] true).st.lastValue = 2 ∧
     (lightControlWrite st [48] true).st.value = st.value) ∧
    (pyInt (bytesToStr bs) = none →
      lightControlWrite st bs bk =
        { st := st, sent := [], fault := some Fault.valueError }) ∧
    (∀ i : Int, pyInt (bytesToStr bs) = some i → ¬(i = 0 ∨ i = 1 ∨ i = 2) →
      lightControlWrite st bs bk =
        { st := st, sent := [], fault := some Fault.nameError }) := by
  refine ⟨⟨rfl, rfl, rfl, rfl⟩, ?_, ?_⟩
  · intro h
    simp [lightControlWrite, h]
  · intro i hi hnot
    simp [lightControlWrite, hi, hnot]

/-- Witness for amended C2 at concrete payloads. -/
theorem lightControl_write_digits_witness :
    pyInt (bytesToStr [97]) = none ∧
    lightControlWrite lightControlInit [97] true =
      { st := lightControlInit, sent := [], fault := some Fault.valueError } ∧
    (lightControlWrite lightControlInit [50] true).st.lastValue = 2 :=
  ⟨by decide,
   (lightControl_write_digits_and_rejection lightControlInit [97] true).2.1
     (by decide),
   (lightControl_write_digits_and_rejection lightControlInit [97]
      true).1.2.2.1⟩

/-- C3 counterexample: the lower-cased member on and the mixed-case Off
are rejected with NotPermitted, so membership is case-sensitive, contrary
to the claimed case-insensitive acceptance. -/
theorem fan_write_lowercase_on_rejected :
    fanWrite fanInit "on" true =
      { st := fanInit, sent := [], fault := some Fault.notPermitted } ∧
    fanWrite fanInit "Off" true =
      { st := fanInit, sent := [], fault := some Fault.notPermitted } := by
  decide

/-- C3 amended: accepted payloads are exactly the exact-case strings ON,
OFF and UNKNOWN; an accepted value is forwarded lower-cased and, with a
succeeding backend, becomes the current value; any other string raises
NotPermitted, sends nothing and leaves the state unchanged. -/
theorem fan_write_exact_case_membership (st : FanState) (s : String)
    (bk : Bool) :
    (fanHasValue s = true ↔ (s = "ON" ∨ s = "OFF" ∨ s = "UNKNOWN")) ∧
    (fanHasValue s = true →
      (fanWrite st s true).sent =
        [{ cmd := strToLower s, value := none, state := none }] ∧
      (fanWrite st s true).st.value = strBytes s ∧
      (fanWrite st s true).fault = none) ∧
    (fanHasValue s = false →
      fanWrite st s bk =
        { st := st, sent := [], fault := some Fault.notPermitted }) := by
  refine ⟨by simp [fanHasValue], ?_, ?_⟩
  · intro h
    simp [fanWrite, h]
  · intro h
    simp [fanWrite, h]

/-- Witness for amended C3 at ON and at the mixed-case oN. -/
theorem fan_write_membership_witness :
    fanHasValue "ON" = true ∧
    (fanWrite fanInit "ON" true).sent =
      [{ cmd := "on", value := none, state := none }] ∧
    fanHasValue "oN" = false ∧
    fanWrite fanInit "oN" true =
      { st := fanInit, sent := [], fault := some Fault.notPermitted } := by
  refine ⟨by decide, ?_, by decide, ?_⟩
  · exact ((fan_write_exact_case_membership fanInit "ON" true).2.1
      (by decide)).1.trans (by decide)
  · exact (fan_write_exact_case_membership fanInit "oN" true).2.2 (by decide)

/-- C4 counterexample: a validated temperature setpoint write with a
failing backend raises NameError (the except clause names the undefined
identifier Exceptions), not the Failed fault; and with a succeeding
backend the handler never updates the current value. -/
theorem setpoint_write_backend_failure_not_failed_fault :
    (temperatureSetpointWrite floatCharInit [0, 0, 0, 0, 0, 0, 0, 0]
        false).fault = some Fault.nameError ∧
    some Fault.nameError ≠ some Fault.failed ∧
    (temperatureSetpointWrite floatCharInit [0, 0, 0, 0, 0, 0, 0, 0]
        true).st.value = [] ∧
    ([] : List Nat) ≠ [0, 0, 0, 0, 0, 0, 0, 0] := by
  decide

/-- C4 amended: for every validated write, a backend transport failure
raises NameError to the caller and leaves the characteristic state
unchanged; a transport success updates the current value only for the
fan characteristic (and updates the light control lastValue), while the
setpoint handlers never assign the current value. -/
theorem write_transport_outcomes (fs : FanState) (s : String)
    (lcs : LightControlState) (lbs : List Nat) (i : Int)
    (ts hs : FloatChar) (bs8 bs4 : List Nat)
    (hfan : fanHasValue s = true)
    (hlc : pyInt (bytesToStr lbs) = some i) (hi : i = 0 ∨ i = 1 ∨ i = 2)
    (h8 : bs8.length = 8) (h4 : bs4.length = 4) :
    ((fanWrite fs s false).fault = some Fault.nameError ∧
     (fanWrite fs s false).st = fs) ∧
    ((lightControlWrite lcs lbs false).fault = some Fault.nameError ∧
     (lightControlWrite lcs lbs false).st = lcs) ∧
    ((temperatureSetpointWrite ts bs8 false).fault = some Fault.nameError ∧
     (temperatureSetpointWrite ts bs8 false).st = ts) ∧
    ((humiditySetpointWrite hs bs4 false).fault = some Fault.nameError ∧
     (humiditySetpointWrite hs bs4 false).st = hs) ∧
    ((fanWrite fs s true).st.value = strBytes s ∧
     (fanWrite fs s true).fault = none) ∧
    ((lightControlWrite lcs lbs true).st.lastValue = i.toNat ∧
     (lightControlWrite lcs lbs true).st.value = lcs.value) ∧
    ((temperatureSetpointWrite ts bs8 true).st = ts ∧
     (temperatureSetpointWrite ts bs8 true).fault = none) ∧
    ((humiditySetpointWrite hs bs4 true).st = hs ∧
     (humiditySetpointWrite hs bs4 true).fault = none) := by
  refine ⟨?_, ?_, ?_, ?_, ?_, ?_, ?_, ?_⟩ <;>
    simp [fanWrite, lightControlWrite, temperatureSetpointWrite,
          humiditySetpointWrite, unpackD, unpackI, hfan, hlc, hi, h8, h4]

/-- Witness for amended C4 at concrete inputs. -/
theorem write_transport_outcomes_witness :
    fanHasValue "OFF" = true ∧
    (fanWrite fanInit "OFF" false).fault = some Fault.nameError ∧
    (temperatureSetpointWrite floatCharInit [0, 0, 0, 0, 0, 0, 0, 0]
        true).st = floatCharInit ∧
    some Fault.nameError ≠ some Fault.failed := by
  have h := write_transport_outcomes fanInit "OFF" lightControlInit [49] 1
    floatCharInit floatCharInit [0, 0, 0, 0, 0, 0, 0, 0] [0, 0, 0, 0]
    (by decide) (by decide) (by decide) (by decide) (by decide)
  exact ⟨by decide, h.1.1, h.2.2.2.2.2.2.1.1, by decide⟩

/-- C6: the humidity setpoint is asymmetric — ReadValue packs the status
field into the 8 little-endian bytes of an IEEE-754 double, while
WriteValue decodes the payload as a 4-byte signed integer and submits the
humidity_setpoint command carrying that integer. -/
theorem humiditySetpoint_read_write_asymmetry (st st2 : FloatChar)
    (w : Nat) (bs : List Nat) (h4 : bs.length = 4) :
    (humiditySetpointRead st (some w)).ret = some (packD w) ∧
    (packD w).length = 8 ∧
    (humiditySetpointWrite st2 bs true).sent =
      [{ cmd := "humidity_setpoint",
         value := some (CmdVal.i (toSigned32 (leNat bs))),
         state := none }] := by
  refine ⟨rfl, rfl, ?_⟩
  simp [humiditySetpointWrite, unpackI, h4]

/-- Witness for C6: reading pattern 0x4034000000000000 (20.0) yields its
8 bytes; writing the 4 bytes of 55 submits the integer 55. -/
theorem humiditySetpoint_asymmetry_witness :
    ([55, 0, 0, 0] : List Nat).length = 4 ∧
    (humiditySetpointRead floatCharInit (some 0x4034000000000000)).ret =
      some [0, 0, 0, 0, 0, 0, 0x34, 0x40] ∧
    (humiditySetpointWrite floatCharInit [55, 0, 0, 0] true).sent =
      [{ cmd := "humidity_setpoint", value := some (CmdVal.i 55),
         state := none }] := by
  have h := humiditySetpoint_read_write_asymmetry floatCharInit floatCharInit
    0x4034000000000000 [55, 0, 0, 0] (by decide)
  exact ⟨by decide, h.1.trans (by decide), h.2.2.trans (by decide)⟩

/-- C7 counterexample: in the call sequence of main, agent registration
does not come after advertisement registration — RegisterAgent is called
before RegisterAdvertisement, contrary to the claimed order. -/
theorem boot_agent_before_advertisement :
    ¬ ((mainEvents true).findIdx (· == BootEvent.registerAdvertisement) <
       (mainEvents true).findIdx (· == BootEvent.registerAgent)) := by
  decide

/-- C7 amended: without an adapter, main logs a critical error and stops
before any registration, never reaching the running loop; with an
adapter, the sequence is adapter power, agent registration, advertisement
registration, application registration, default-agent request, then the
loop runs.  The advertisement failure callback logs a critical error and
quits the loop; the application error handler is passed wrapped in a
Python list and so cannot be invoked, and that path quits nothing. -/
theorem boot_sequence_and_failures :
    mainEvents false =
      [BootEvent.logCritical "GattManager1 interface not found"] ∧
    (mainEvents false).contains BootEvent.registerApplication = false ∧
    (mainEvents false).contains BootEvent.registerAdvertisement = false ∧
    (mainEvents false).contains BootEvent.loopRun = false ∧
    mainEvents true =
      [BootEvent.powerAdapter, BootEvent.registerAgent,
       BootEvent.registerAdvertisement, BootEvent.registerApplication,
       BootEvent.requestDefaultAgent, BootEvent.loopRun] ∧
    invokeCb adErrorHandler =
      some [BootEvent.logCritical "Failed to register advertisement",
            BootEvent.loopQuit] ∧
    invokeCb appErrorHandler = none := by
  decide

/-- C10: the initial values — fan starts at the single byte 0xFF, which
is not the byte encoding of any accepted fan string; light control starts
at value [0] with lastValue 0; every float characteristic starts with an
empty current value, so a first read with a failing backend returns the
empty byte string. -/
theorem initial_values :
    fanInit.value = [0xFF] ∧
    (∀ s : String, fanHasValue s = true → strBytes s ≠ fanInit.value) ∧
    lightControlInit.value = [0] ∧
    lightControlInit.lastValue = 0 ∧
    lightInit.value = [] ∧
    temperatureInit.value = [] ∧
    temperatureSetpointInit.value = [] ∧
    humidityInit.value = [] ∧
    humiditySetpointInit.value = [] ∧
    (lightRead lightInit none).ret = some [] ∧
    (lightRead lightInit none).fault = none := by
  refine ⟨rfl, ?_, rfl, rfl, rfl, rfl, rfl, rfl, rfl, rfl, rfl⟩
  intro s hs
  simp only [fanHasValue, decide_eq_true_eq] at hs
  rcases hs with h | h | h <;> subst h <;> decide

/-- Witness for C10 at the member UNKNOWN. -/
theorem initial_values_witness :
    fanHasValue "UNKNOWN" = true ∧ strBytes "UNKNOWN" ≠ fanInit.value :=
  ⟨by decide, initial_values.2.1 "UNKNOWN" (by decide)⟩

end Gr0g
